import Mathlib

/-!
Verification of the trading-dashboard price-stream core.

The definitions below are a shallow embedding of the TypeScript source:
* `src/utils/portfolioCalculations.ts` — the pure valuation engine
  (numbers embedded as rationals, `number | undefined` as `Option ℚ`,
  `Record<string, number>` as `String → Option ℚ`);
* `src/store/Store.ts` — the WebSocket connection supervisor (network
  variant) as an explicit state machine over the closure-held internals,
  the 200 ms flush callback of the batching buffer, and the portfolio
  fetch action with its single delayed retry.
-/

namespace TradingDashboard

/-! ### Valuation engine (src/utils/portfolioCalculations.ts) -/

structure PortfolioItem where
  symbol : String
  quantity : ℚ
  avgCost : ℚ
deriving DecidableEq

structure CalculatedPortfolioItem where
  symbol : String
  quantity : ℚ
  avgCost : ℚ
  currentPrice : Option ℚ
  totalValue : Option ℚ
  dailyPnl : Option ℚ
  dailyPnlPercent : Option ℚ
deriving DecidableEq

/-- `calculateTotalValue(quantity, currentPrice)`: quantity × currentPrice,
absent when the price is absent. -/
def calculateTotalValue (quantity : ℚ) (currentPrice : Option ℚ) : Option ℚ :=
  match currentPrice with
  | none => none
  | some p => some (quantity * p)

/-- `calculateDailyPnl(quantity, avgCost, currentPrice)`:
quantity × (currentPrice − avgCost), absent when the price is absent. -/
def calculateDailyPnl (quantity avgCost : ℚ) (currentPrice : Option ℚ) : Option ℚ :=
  match currentPrice with
  | none => none
  | some p => some (quantity * (p - avgCost))

/-- `calculateDailyPnlPercent(avgCost, currentPrice)`:
((currentPrice − avgCost) / avgCost) × 100; absent when the price is absent
or when avgCost = 0 (the division-by-zero guard in the source). -/
def calculateDailyPnlPercent (avgCost : ℚ) (currentPrice : Option ℚ) : Option ℚ :=
  match currentPrice with
  | none => none
  | some p => if avgCost = 0 then none else some ((p - avgCost) / avgCost * 100)

/-- `calculatePortfolioItemMetrics(item, currentPrice)`: spreads the item and
attaches the three derived fields. -/
def calculatePortfolioItemMetrics (item : PortfolioItem) (currentPrice : Option ℚ) :
    CalculatedPortfolioItem :=
  { symbol := item.symbol
    quantity := item.quantity
    avgCost := item.avgCost
    currentPrice := currentPrice
    totalValue := calculateTotalValue item.quantity currentPrice
    dailyPnl := calculateDailyPnl item.quantity item.avgCost currentPrice
    dailyPnlPercent := calculateDailyPnlPercent item.avgCost currentPrice }

/-- `calculatePortfolioMetrics(portfolio, prices)`: maps the per-item metrics
over the portfolio, looking each price up by symbol. -/
def calculatePortfolioMetrics (portfolio : List PortfolioItem)
    (prices : String → Option ℚ) : List CalculatedPortfolioItem :=
  portfolio.map (fun item => calculatePortfolioItemMetrics item (prices item.symbol))

/-- `calculateTotalPortfolioValue(portfolio, prices)`: reduce with initial 0,
adding quantity × price and skipping symbols missing from `prices`. -/
def calculateTotalPortfolioValue (portfolio : List PortfolioItem)
    (prices : String → Option ℚ) : ℚ :=
  portfolio.foldl (fun total item =>
    match prices item.symbol with
    | none => total
    | some price => total + item.quantity * price) 0

/-- `calculateTotalPortfolioPnl(portfolio, prices)`: reduce with initial 0,
adding quantity × (price − avgCost) and skipping symbols missing from
`prices`. -/
def calculateTotalPortfolioPnl (portfolio : List PortfolioItem)
    (prices : String → Option ℚ) : ℚ :=
  portfolio.foldl (fun total item =>
    match prices item.symbol with
    | none => total
    | some price => total + item.quantity * (price - item.avgCost)) 0

/-! ### Batching buffer flush (src/store/Store.ts, flushTimer callback) -/

structure PriceMsg where
  symbol : String
  price : ℚ
deriving DecidableEq

/-- The `for (const m of batch) next[m.symbol] = m.price` loop over a copy of
the published prices record. -/
def applyBatch (prices : String → Option ℚ) (batch : List PriceMsg) :
    String → Option ℚ :=
  batch.foldl (fun next m => fun s => if s = m.symbol then some m.price else next s)
    prices

/-- One tick of the 200 ms flush interval: early return when the buffer is
empty, otherwise `buffer.splice(0)` drains everything into a batch and the
batch is folded into a copy of the published prices. Returns the published
prices and the buffer after the tick. -/
def flushStep (prices : String → Option ℚ) (buffer : List PriceMsg) :
    (String → Option ℚ) × List PriceMsg :=
  match buffer with
  | [] => (prices, [])
  | _ :: _ => (applyBatch prices buffer, [])

/-- Spec-side meaning of "the last price enqueued for a symbol within a
batch": the price of the last element of the batch carrying that symbol,
absent when the symbol does not occur. -/
def lastPriceIn : List PriceMsg → String → Option ℚ
  | [], _ => none
  | m :: rest, s =>
    match lastPriceIn rest s with
    | some q => some q
    | none => if m.symbol = s then some m.price else none

/-! ### Connection supervisor (src/store/Store.ts, network variant)

The closure-held `_internals` fields that drive the lifecycle (backoff,
reconnect timer, the closed-by-caller flag and the initialization guard)
together with the published `status` form the state; the WebSocket handlers,
the two store actions and the callback of the reconnect timer are the events.
`step` also reports the list of reconnect delays passed to `setTimeout` by
`scheduleReconnect` during the event (empty or a singleton). -/

inductive ConnStatus where
  | connecting
  | connected
  | reconnecting
  | disconnected
deriving DecidableEq

structure WSState where
  status : ConnStatus
  backoff : Nat
  reconnectTimer : Option Nat
  closedExplicitly : Bool
  inited : Bool
deriving DecidableEq

/-- The initial state of the store: status "connecting", backoff 1000, no pending
timer, both flags false. -/
def initialWSState : WSState :=
  { status := .connecting
    backoff := 1000
    reconnectTimer := none
    closedExplicitly := false
    inited := false }

inductive WSEvent where
  /-- the `connect` action -/
  | connectCall
  /-- the `disconnect` action -/
  | disconnectCall
  /-- `ws.onopen` fires -/
  | srcOpen
  /-- `ws.onerror` fires -/
  | srcError
  /-- `ws.onclose` fires -/
  | srcClose
  /-- a pending reconnect timer fires -/
  | timerFire
deriving DecidableEq

/-- One event of the supervisor, returning the new state and the reconnect
delays scheduled during the event.

* `connectCall`: no-op when already initialized; otherwise sets the guard and
  `createSocket` sets status "connecting". (The shutdown flag is NOT touched.)
* `disconnectCall`: sets the shutdown flag, clears the initialization guard,
  cancels any pending reconnect timer, closes the socket, status
  "disconnected".
* `srcOpen`: resets backoff to 1000, status "connected".
* `srcError`: status "reconnecting" (unconditionally — the handler does not
  consult the shutdown flag and schedules nothing).
* `srcClose`: when the shutdown flag is set, status "disconnected" and
  nothing else; otherwise status "reconnecting" and `scheduleReconnect`
  schedules a timer with the current backoff as its delay.
* `timerFire`: when a timer is pending, doubles the backoff capped at 32000
  and `createSocket` sets status "connecting". -/
def step (s : WSState) : WSEvent → WSState × List Nat
  | .connectCall =>
    if s.inited then (s, [])
    else ({ s with inited := true, status := .connecting }, [])
  | .disconnectCall =>
    ({ s with
        closedExplicitly := true
        inited := false
        reconnectTimer := none
        status := .disconnected }, [])
  | .srcOpen =>
    ({ s with backoff := 1000, status := .connected }, [])
  | .srcError =>
    ({ s with status := .reconnecting }, [])
  | .srcClose =>
    if s.closedExplicitly then ({ s with status := .disconnected }, [])
    else
      ({ s with
          status := .reconnecting
          reconnectTimer := some s.backoff }, [s.backoff])
  | .timerFire =>
    match s.reconnectTimer with
    | none => (s, [])
    | some _ =>
      ({ s with
          reconnectTimer := none
          backoff := min 32000 (s.backoff * 2)
          status := .connecting }, [])

/-- Run a list of events, accumulating the scheduled reconnect delays in
order. -/
def run (s : WSState) : List WSEvent → WSState × List Nat
  | [] => (s, [])
  | e :: rest =>
    ((run (step s e).1 rest).1, (step s e).2 ++ (run (step s e).1 rest).2)

/-- `n` consecutive transport failures without an intervening open: each
failure is an unexpected close followed by the scheduled reconnect timer
firing. -/
def failCycles : Nat → List WSEvent
  | 0 => []
  | n + 1 => failCycles n ++ [WSEvent.srcClose, WSEvent.timerFire]

/-! ### Portfolio fetch (src/store/Store.ts, fetchPortfolio) -/

structure PortfolioState where
  portfolio : Option (List PortfolioItem)
  error : Option String
  isLoading : Bool
deriving DecidableEq

/-- Outcome of one network attempt against /portfolio.json: parsed holdings,
or the error message thrown (non-ok HTTP status or a network failure). -/
inductive FetchAttempt where
  | ok : List PortfolioItem → FetchAttempt
  | fail : String → FetchAttempt
deriving DecidableEq

structure FetchOutcome where
  state : PortfolioState
  /-- how many fetch attempts were performed -/
  attempts : Nat
  /-- the delay of the scheduled retry, when one was scheduled -/
  retryDelay : Option Nat
deriving DecidableEq

/-- The `fetchPortfolio` action, with the outcomes of the (at most two)
network attempts supplied by the environment. Duplicate-fetch guard on
`isLoading`; on a first failure a single retry is scheduled via
`setTimeout(..., 3000)`; a second failure stores the error message; a
success on either attempt stores the holdings with no error. -/
def fetchPortfolio (st : PortfolioState) (a1 a2 : FetchAttempt) : FetchOutcome :=
  if st.isLoading then { state := st, attempts := 0, retryDelay := none }
  else
    let st1 : PortfolioState :=
      { st with isLoading := true, error := none }
    match a1 with
    | .ok data =>
      { state := { st1 with portfolio := some data, isLoading := false }
        attempts := 1
        retryDelay := none }
    | .fail _ =>
      match a2 with
      | .ok d2 =>
        { state :=
            { st1 with
                portfolio := some d2
                isLoading := false
                error := none }
          attempts := 2
          retryDelay := some 3000 }
      | .fail msg =>
        { state := { st1 with error := some msg, isLoading := false }
          attempts := 2
          retryDelay := some 3000 }

/-! ### Helper lemmas -/

theorem run_append (s : WSState) (l1 l2 : List WSEvent) :
    run s (l1 ++ l2) =
      ((run (run s l1).1 l2).1, (run s l1).2 ++ (run (run s l1).1 l2).2) := by
  induction l1 generalizing s with
  | nil => simp [run]
  | cons e rest ih => simp [run, ih]

theorem run_cycle (s : WSState) (h : s.closedExplicitly = false) :
    run s [WSEvent.srcClose, WSEvent.timerFire] =
      ({ s with
          status := ConnStatus.connecting
          reconnectTimer := none
          backoff := min 32000 (s.backoff * 2) }, [s.backoff]) := by
  simp [run, step, h]

theorem run_open_close (s : WSState) (h : s.closedExplicitly = false) :
    (run s [WSEvent.srcOpen, WSEvent.srcClose]).2 = [1000] := by
  simp [run, step, h]

theorem run_failCycles (s : WSState) (h : s.closedExplicitly = false)
    (hb : s.backoff ≤ 32000) :
    ∀ n : Nat,
      (run s (failCycles n)).1.closedExplicitly = false ∧
      (run s (failCycles n)).1.backoff = min 32000 (s.backoff * 2 ^ n) ∧
      (run s (failCycles n)).2 =
        (List.range n).map (fun k => min 32000 (s.backoff * 2 ^ k)) := by
  intro n
  induction n with
  | zero =>
    refine ⟨h, ?_, by simp [failCycles, run]⟩
    simp only [failCycles, run, pow_zero, mul_one]
    omega
  | succ n ih =>
    obtain ⟨ih1, ih2, ih3⟩ := ih
    have hsplit :=
      run_append s (failCycles n) [WSEvent.srcClose, WSEvent.timerFire]
    have hcyc := run_cycle (run s (failCycles n)).1 ih1
    have hfc : failCycles (n + 1) =
        failCycles n ++ [WSEvent.srcClose, WSEvent.timerFire] := rfl
    rw [hfc, hsplit, hcyc]
    refine ⟨ih1, ?_, ?_⟩
    · simp only [ih2, pow_succ, ← mul_assoc]
      omega
    · simp only [ih3, ih2, List.range_succ, List.map_append, List.map_cons,
        List.map_nil]

theorem applyBatch_lastPriceIn (batch : List PriceMsg) :
    ∀ (p : String → Option ℚ) (s : String),
      applyBatch p batch s =
        match lastPriceIn batch s with
        | some q => some q
        | none => p s := by
  induction batch with
  | nil => intro p s; rfl
  | cons m t ih =>
    intro p s
    rw [show applyBatch p (m :: t) =
        applyBatch (fun s2 => if s2 = m.symbol then some m.price else p s2) t
      from rfl, ih]
    cases hl : lastPriceIn t s with
    | some q => simp [lastPriceIn, hl]
    | none =>
      simp only [lastPriceIn, hl]
      by_cases hs : s = m.symbol
      · simp [hs]
      · rw [if_neg hs, if_neg (fun hms => hs hms.symm)]

theorem lastPriceIn_isSome (batch : List PriceMsg) (s : String) :
    (lastPriceIn batch s).isSome ↔ ∃ m ∈ batch, m.symbol = s := by
  induction batch with
  | nil => simp [lastPriceIn]
  | cons m t ih =>
    cases hl : lastPriceIn t s with
    | some q =>
      rw [hl] at ih
      simp only [Option.isSome_some, true_iff] at ih
      obtain ⟨x, hx, hxs⟩ := ih
      simp only [lastPriceIn, hl, Option.isSome_some, true_iff, List.mem_cons]
      exact ⟨x, Or.inr hx, hxs⟩
    | none =>
      rw [hl] at ih
      simp only [Option.isSome_none, Bool.false_eq_true, false_iff] at ih
      simp only [lastPriceIn, hl, List.mem_cons]
      by_cases hs : m.symbol = s
      · simp only [if_pos hs, Option.isSome_some, true_iff]
        exact ⟨m, Or.inl rfl, hs⟩
      · simp only [if_neg hs, Option.isSome_none, Bool.false_eq_true,
          false_iff]
        rintro ⟨x, hx | hx, hxs⟩
        · exact hs (hx ▸ hxs)
        · exact ih ⟨x, hx, hxs⟩

/-- Claim C1: starting from a freshly connected supervisor, a run of `n`
consecutive transport failures with no intervening open schedules reconnect
delays 1000, 2000, 4000, ... doubling each attempt and capped at 32000; and a
successful open resets the backoff (every open sets it to 1000), so the next
delay after a subsequent failure is again 1000. -/
theorem backoff_doubles_capped_and_resets (n : Nat) :
    (run (run initialWSState [WSEvent.connectCall, WSEvent.srcOpen]).1
        (failCycles n)).2 =
      (List.range n).map (fun k => min 32000 (1000 * 2 ^ k)) ∧
    (run (run initialWSState [WSEvent.connectCall, WSEvent.srcOpen]).1
        (failCycles n ++ [WSEvent.srcOpen, WSEvent.srcClose])).2 =
      (List.range n).map (fun k => min 32000 (1000 * 2 ^ k)) ++ [1000] ∧
    ∀ s : WSState, (step s WSEvent.srcOpen).1.backoff = 1000 := by
  have h1 : (run initialWSState [WSEvent.connectCall, WSEvent.srcOpen]).1 =
      { status := ConnStatus.connected
        backoff := 1000
        reconnectTimer := none
        closedExplicitly := false
        inited := true } := rfl
  have hfc := run_failCycles (run initialWSState
      [WSEvent.connectCall, WSEvent.srcOpen]).1 (by rw [h1])
      (by rw [h1]; decide) n
  obtain ⟨hc, hb, hd⟩ := hfc
  have hdelays : (run (run initialWSState
      [WSEvent.connectCall, WSEvent.srcOpen]).1 (failCycles n)).2 =
      (List.range n).map (fun k => min 32000 (1000 * 2 ^ k)) := by
    rw [hd, h1]
  refine ⟨hdelays, ?_, fun s => rfl⟩
  rw [run_append, hdelays, run_open_close _ hc]

/-- Claim C2 counterexample: after an explicit disconnect followed by a new
connect, the shutdown flag is still set (connect does not reset it), and an
unexpected close of the new source yields status "disconnected" with no
reconnect scheduled — it is treated as a caller-initiated terminal close,
contradicting the claim that the restart begins a fresh cycle in which an
unexpected close triggers reconnection. -/
theorem connect_leaves_shutdown_flag_set :
    (run initialWSState [WSEvent.connectCall, WSEvent.disconnectCall,
        WSEvent.connectCall]).1.closedExplicitly = true ∧
    (run initialWSState [WSEvent.connectCall, WSEvent.disconnectCall,
        WSEvent.connectCall, WSEvent.srcClose]).1.status =
      ConnStatus.disconnected ∧
    (run initialWSState [WSEvent.connectCall, WSEvent.disconnectCall,
        WSEvent.connectCall, WSEvent.srcClose]).2 = [] := by
  decide

/-- Claim C2, amended: a stop followed by a start re-runs initialization (the
stop cleared the initialized guard, and the start sets it again), but the
start does not reset the shutdown flag; consequently, after the restart an
unexpected close of the new source is treated as a caller-initiated terminal
close (status "disconnected", no reconnect scheduled). -/
theorem connect_after_disconnect (s : WSState) :
    ((step (step s WSEvent.disconnectCall).1 WSEvent.connectCall).1.inited
        = true) ∧
    ((step (step s WSEvent.disconnectCall).1 WSEvent.connectCall).1.status
        = ConnStatus.connecting) ∧
    ((step (step s WSEvent.disconnectCall).1
        WSEvent.connectCall).1.closedExplicitly = true) ∧
    ((step (step (step s WSEvent.disconnectCall).1 WSEvent.connectCall).1
        WSEvent.srcClose).1.status = ConnStatus.disconnected) ∧
    ((step (step (step s WSEvent.disconnectCall).1 WSEvent.connectCall).1
        WSEvent.srcClose).2 = []) := by
  simp [step]

/-- Claim C3 counterexample: an in-flight source error event delivered after
an explicit disconnect sets the status to "reconnecting" — the error handler
does not consult the shutdown flag — contradicting the claim that the status
never becomes "reconnecting" and that any in-flight error after stop leaves
the status at "disconnected". -/
theorem error_after_disconnect_sets_reconnecting :
    (run initialWSState [WSEvent.connectCall, WSEvent.disconnectCall,
        WSEvent.srcError]).1.status = ConnStatus.reconnecting := by
  decide

/-- Claim C3, amended: after an explicit stop and before any start, the
supervisor never auto-reconnects — the stop cancels any pending reconnect
timer, a timer-fire event is then a no-op, a close event leaves the status at
"disconnected" and schedules nothing — but an in-flight source error event
still sets the status to "reconnecting" (while scheduling nothing), because
the error handler does not consult the shutdown flag. -/
theorem no_reconnect_after_disconnect (s : WSState)
    (h : s.closedExplicitly = true) (ht : s.reconnectTimer = none) :
    ((step s WSEvent.disconnectCall).1.closedExplicitly = true ∧
      (step s WSEvent.disconnectCall).1.reconnectTimer = none) ∧
    (step s WSEvent.srcClose).1.status = ConnStatus.disconnected ∧
    (step s WSEvent.srcClose).2 = [] ∧
    (step s WSEvent.srcClose).1.reconnectTimer = none ∧
    (step s WSEvent.timerFire).1 = s ∧
    (step s WSEvent.timerFire).2 = [] ∧
    (step s WSEvent.srcError).1.status = ConnStatus.reconnecting ∧
    (step s WSEvent.srcError).2 = [] ∧
    (step s WSEvent.srcError).1.reconnectTimer = none := by
  refine ⟨⟨rfl, rfl⟩, ?_, ?_, ?_, ?_, ?_, ?_, ?_, ?_⟩ <;>
    simp [step, h, ht]

/-- Witness for the amended claim C3, at the state reached right after a
disconnect. -/
theorem no_reconnect_after_disconnect_witness :
    ((step (⟨ConnStatus.disconnected, 1000, none, true, false⟩ : WSState)
        WSEvent.srcClose).1.status = ConnStatus.disconnected) ∧
    ((step (⟨ConnStatus.disconnected, 1000, none, true, false⟩ : WSState)
        WSEvent.srcError).1.status = ConnStatus.reconnecting) := by
  have h := no_reconnect_after_disconnect
    (⟨ConnStatus.disconnected, 1000, none, true, false⟩ : WSState) rfl rfl
  exact ⟨h.2.1, h.2.2.2.2.2.2.1⟩

/-- Claim C4: one tick of the flush cadence leaves the published prices
unchanged on an empty buffer; on a nonempty buffer it drains the whole
buffer in one step, maps each symbol occurring in the drained batch to the
last price enqueued for it within the batch, and leaves the published price
of every other symbol unchanged. -/
theorem flush_drains_and_coalesces (prices : String → Option ℚ)
    (buffer : List PriceMsg) (s : String) :
    (flushStep prices []).1 = prices ∧
    (flushStep prices buffer).2 = [] ∧
    ((lastPriceIn buffer s).isSome ↔ ∃ m ∈ buffer, m.symbol = s) ∧
    (∀ q, lastPriceIn buffer s = some q →
      (flushStep prices buffer).1 s = some q) ∧
    (lastPriceIn buffer s = none → (flushStep prices buffer).1 s = prices s) := by
  refine ⟨rfl, ?_, lastPriceIn_isSome buffer s, ?_, ?_⟩
  · cases buffer <;> rfl
  · intro q hq
    cases buffer with
    | nil => simp [lastPriceIn] at hq
    | cons m t =>
      show applyBatch prices (m :: t) s = some q
      rw [applyBatch_lastPriceIn, hq]
  · intro hq
    cases buffer with
    | nil => rfl
    | cons m t =>
      show applyBatch prices (m :: t) s = prices s
      rw [applyBatch_lastPriceIn, hq]

/-- Witness for claim C4: two ticks for AAPL in one window publish only the
last one; an untouched symbol keeps its previous (absent) price. -/
theorem flush_drains_and_coalesces_witness :
    (flushStep (fun _ => none)
      [⟨"AAPL", 150⟩, ⟨"AAPL", 175⟩]).1 "AAPL" = some 175 ∧
    (flushStep (fun _ => none)
      [⟨"AAPL", 150⟩, ⟨"AAPL", 175⟩]).1 "GOOGL" = none := by
  constructor
  · exact (flush_drains_and_coalesces (fun _ => none)
      [⟨"AAPL", 150⟩, ⟨"AAPL", 175⟩] "AAPL").2.2.2.1 175 (by simp [lastPriceIn])
  · exact (flush_drains_and_coalesces (fun _ => none)
      [⟨"AAPL", 150⟩, ⟨"AAPL", 175⟩] "GOOGL").2.2.2.2 (by simp [lastPriceIn])

/-- Claim C5: totalValue is quantity × price, dailyPnl is
quantity × (price − averageCost), dailyPnlPercent is
((price − averageCost) / averageCost) × 100 when the average cost is nonzero
and absent when it is zero; each is absent when the price is absent; and for
quantity 100, average cost 150, price 175 the results are 17500, 2500 and
50/3 (≈ 16.67). -/
theorem valuation_formulas (q a p : ℚ) :
    calculateTotalValue q (some p) = some (q * p) ∧
    calculateTotalValue q none = none ∧
    calculateDailyPnl q a (some p) = some (q * (p - a)) ∧
    calculateDailyPnl q a none = none ∧
    (a ≠ 0 → calculateDailyPnlPercent a (some p) =
      some ((p - a) / a * 100)) ∧
    calculateDailyPnlPercent 0 (some p) = none ∧
    calculateDailyPnlPercent a none = none ∧
    calculateTotalValue 100 (some 175) = some 17500 ∧
    calculateDailyPnl 100 150 (some 175) = some 2500 ∧
    calculateDailyPnlPercent 150 (some 175) = some (50 / 3) := by
  refine ⟨rfl, rfl, rfl, rfl, ?_, ?_, rfl, ?_, ?_, ?_⟩
  · intro ha
    simp [calculateDailyPnlPercent, ha]
  · simp [calculateDailyPnlPercent]
  · norm_num [calculateTotalValue]
  · norm_num [calculateDailyPnl]
  · norm_num [calculateDailyPnlPercent]

/-- Witness for claim C5, discharging the nonzero-average-cost hypothesis at
average cost 150, price 175. -/
theorem valuation_formulas_witness :
    calculateDailyPnlPercent 150 (some 175) =
      some ((175 - 150) / 150 * 100) :=
  (valuation_formulas 100 150 175).2.2.2.2.1 (by norm_num)

theorem itemMetrics_all_absent_iff (item : PortfolioItem) (price : Option ℚ) :
    ((calculatePortfolioItemMetrics item price).totalValue = none ∧
      (calculatePortfolioItemMetrics item price).dailyPnl = none ∧
      (calculatePortfolioItemMetrics item price).dailyPnlPercent = none) ↔
      (calculatePortfolioItemMetrics item price).currentPrice = none := by
  cases price with
  | none =>
    simp [calculatePortfolioItemMetrics, calculateTotalValue,
      calculateDailyPnl, calculateDailyPnlPercent]
  | some p =>
    simp [calculatePortfolioItemMetrics, calculateTotalValue,
      calculateDailyPnl, calculateDailyPnlPercent]

/-- Claim C6: in every ValuationResult produced by the per-item metrics (and
hence in every element produced by the portfolio-wide map), the three derived
fields are all absent together exactly when currentPrice is absent; there is
no result with totalValue present but currentPrice absent; and a symbol
missing from the price map makes every derived field of that item absent. -/
theorem derived_fields_absent_iff_price_absent (item : PortfolioItem)
    (price : Option ℚ) (portfolio : List PortfolioItem)
    (prices : String → Option ℚ) :
    (((calculatePortfolioItemMetrics item price).totalValue = none ∧
      (calculatePortfolioItemMetrics item price).dailyPnl = none ∧
      (calculatePortfolioItemMetrics item price).dailyPnlPercent = none) ↔
      (calculatePortfolioItemMetrics item price).currentPrice = none) ∧
    (¬((calculatePortfolioItemMetrics item price).totalValue ≠ none ∧
      (calculatePortfolioItemMetrics item price).currentPrice = none)) ∧
    (∀ r ∈ calculatePortfolioMetrics portfolio prices,
      ((r.totalValue = none ∧ r.dailyPnl = none ∧ r.dailyPnlPercent = none) ↔
        r.currentPrice = none)) ∧
    (prices item.symbol = none →
      (calculatePortfolioItemMetrics item (prices item.symbol)).currentPrice
          = none ∧
      (calculatePortfolioItemMetrics item (prices item.symbol)).totalValue
          = none ∧
      (calculatePortfolioItemMetrics item (prices item.symbol)).dailyPnl
          = none ∧
      (calculatePortfolioItemMetrics item
          (prices item.symbol)).dailyPnlPercent = none) := by
  refine ⟨itemMetrics_all_absent_iff item price, ?_, ?_, ?_⟩
  · cases price with
    | none => simp [calculatePortfolioItemMetrics, calculateTotalValue]
    | some p => simp [calculatePortfolioItemMetrics]
  · intro r hr
    obtain ⟨it, _, rfl⟩ := List.mem_map.mp hr
    exact itemMetrics_all_absent_iff it (prices it.symbol)
  · intro hp
    rw [hp]
    exact ⟨rfl, rfl, rfl, rfl⟩

/-- Witness for claim C6, at a holding whose symbol is missing from the
price map. -/
theorem derived_fields_absent_witness :
    (calculatePortfolioItemMetrics ⟨"GOOGL", 50, 2500⟩
        ((fun _ => (none : Option ℚ)) "GOOGL")).currentPrice = none ∧
    (calculatePortfolioItemMetrics ⟨"GOOGL", 50, 2500⟩
        ((fun _ => (none : Option ℚ)) "GOOGL")).totalValue = none ∧
    (calculatePortfolioItemMetrics ⟨"GOOGL", 50, 2500⟩
        ((fun _ => (none : Option ℚ)) "GOOGL")).dailyPnl = none ∧
    (calculatePortfolioItemMetrics ⟨"GOOGL", 50, 2500⟩
        ((fun _ => (none : Option ℚ)) "GOOGL")).dailyPnlPercent = none :=
  (derived_fields_absent_iff_price_absent ⟨"GOOGL", 50, 2500⟩ none []
    (fun _ => none)).2.2.2 rfl

theorem foldl_id {α β : Type} :
    ∀ (l : List β) (acc : α), l.foldl (fun total _ => total) acc = acc := by
  intro l
  induction l with
  | nil => intro acc; rfl
  | cons hd tl ih => intro acc; exact ih acc

theorem portfolio_foldl_filter (prices : String → Option ℚ)
    (contrib : PortfolioItem → ℚ → ℚ) :
    ∀ (l : List PortfolioItem) (acc : ℚ),
      l.foldl (fun total item =>
        match prices item.symbol with
        | none => total
        | some price => total + contrib item price) acc =
      (l.filter (fun item => (prices item.symbol).isSome)).foldl
        (fun total item =>
          match prices item.symbol with
          | none => total
          | some price => total + contrib item price) acc := by
  intro l
  induction l with
  | nil => intro acc; rfl
  | cons hd tl ih =>
    intro acc
    cases hp : prices hd.symbol with
    | none => simp [List.filter_cons, hp, ih, List.foldl_cons]
    | some pr => simp [List.filter_cons, hp, ih, List.foldl_cons]

theorem portfolio_foldl_acc (prices : String → Option ℚ)
    (contrib : PortfolioItem → ℚ → ℚ) :
    ∀ (l : List PortfolioItem) (acc : ℚ),
      l.foldl (fun total item =>
        match prices item.symbol with
        | none => total
        | some price => total + contrib item price) acc =
      acc + l.foldl (fun total item =>
        match prices item.symbol with
        | none => total
        | some price => total + contrib item price) 0 := by
  intro l
  induction l with
  | nil => intro acc; simp
  | cons hd tl ih =>
    intro acc
    cases hp : prices hd.symbol with
    | none =>
      simp only [List.foldl_cons, hp]
      exact ih acc
    | some pr =>
      simp only [List.foldl_cons, hp]
      rw [ih (acc + contrib hd pr), ih (0 + contrib hd pr)]
      ring

/-- Claim C7: the portfolio-wide value and P&L folds skip holdings whose
symbols are missing from the price map (the fold over a portfolio equals the
fold over the priced holdings only); an empty portfolio or an all-absent
price map yields 0; and for portfolio [{AAPL,100,150},{GOOGL,50,2500}] with
only AAPL priced at 175, the total value is 17500. -/
theorem total_folds_skip_missing (portfolio : List PortfolioItem)
    (prices : String → Option ℚ) :
    calculateTotalPortfolioValue [] prices = 0 ∧
    calculateTotalPortfolioPnl [] prices = 0 ∧
    calculateTotalPortfolioValue portfolio (fun _ => none) = 0 ∧
    calculateTotalPortfolioPnl portfolio (fun _ => none) = 0 ∧
    calculateTotalPortfolioValue portfolio prices =
      calculateTotalPortfolioValue
        (portfolio.filter (fun item => (prices item.symbol).isSome)) prices ∧
    calculateTotalPortfolioPnl portfolio prices =
      calculateTotalPortfolioPnl
        (portfolio.filter (fun item => (prices item.symbol).isSome)) prices ∧
    calculateTotalPortfolioValue
      [⟨"AAPL", 100, 150⟩, ⟨"GOOGL", 50, 2500⟩]
      (fun s => if s = "AAPL" then some 175 else none) = 17500 := by
  refine ⟨rfl, rfl, ?_, ?_, ?_, ?_, ?_⟩
  · exact foldl_id portfolio 0
  · exact foldl_id portfolio 0
  · exact portfolio_foldl_filter prices
      (fun item price => item.quantity * price) portfolio 0
  · exact portfolio_foldl_filter prices
      (fun item price => item.quantity * (price - item.avgCost)) portfolio 0
  · norm_num [calculateTotalPortfolioValue, List.foldl_cons, List.foldl_nil]
    rw [if_neg (by decide : ¬("GOOGL" = "AAPL"))]

/-- Claim C8: the portfolio-wide metrics are exactly the per-item metrics
mapped over the holdings in input order — same length, i-th result derived
from the i-th holding with the price looked up by its symbol — and a missing
symbol produces absent derived fields rather than an error. -/
theorem portfolioMetrics_is_map (portfolio : List PortfolioItem)
    (prices : String → Option ℚ) :
    calculatePortfolioMetrics portfolio prices =
      portfolio.map (fun item =>
        calculatePortfolioItemMetrics item (prices item.symbol)) ∧
    (calculatePortfolioMetrics portfolio prices).length = portfolio.length ∧
    (∀ i, (calculatePortfolioMetrics portfolio prices).get? i =
      (portfolio.get? i).map (fun item =>
        calculatePortfolioItemMetrics item (prices item.symbol))) ∧
    (∀ item : PortfolioItem, prices item.symbol = none →
      (calculatePortfolioItemMetrics item (prices item.symbol)).totalValue
          = none ∧
      (calculatePortfolioItemMetrics item (prices item.symbol)).dailyPnl
          = none ∧
      (calculatePortfolioItemMetrics item
          (prices item.symbol)).dailyPnlPercent = none) := by
  refine ⟨rfl, by simp [calculatePortfolioMetrics], ?_, ?_⟩
  · intro i
    simp [calculatePortfolioMetrics]
  · intro item hp
    rw [hp]
    exact ⟨rfl, rfl, rfl⟩

/-- Witness for claim C8, at a holding absent from the price map. -/
theorem portfolioMetrics_is_map_witness :
    (calculatePortfolioItemMetrics ⟨"TSLA", 25, 700⟩
        ((fun _ => (none : Option ℚ)) "TSLA")).totalValue = none ∧
    (calculatePortfolioItemMetrics ⟨"TSLA", 25, 700⟩
        ((fun _ => (none : Option ℚ)) "TSLA")).dailyPnl = none ∧
    (calculatePortfolioItemMetrics ⟨"TSLA", 25, 700⟩
        ((fun _ => (none : Option ℚ)) "TSLA")).dailyPnlPercent = none :=
  (portfolioMetrics_is_map [] (fun _ => none)).2.2.2 ⟨"TSLA", 25, 700⟩ rfl

/-- Claim C9: a portfolio fetch that fails on its first attempt performs
exactly one retry, scheduled after a 3000 ms delay; a second failure stores
the error message as the user-visible error and no further attempt happens
(at most two attempts ever); a success on either attempt stores the holdings
and surfaces no error. -/
theorem fetch_retries_once (st : PortfolioState) (a1 a2 : FetchAttempt)
    (h : st.isLoading = false) :
    (∀ m, a1 = FetchAttempt.fail m →
      (fetchPortfolio st a1 a2).retryDelay = some 3000 ∧
      (fetchPortfolio st a1 a2).attempts = 2) ∧
    (∀ m1 m2, a1 = FetchAttempt.fail m1 → a2 = FetchAttempt.fail m2 →
      (fetchPortfolio st a1 a2).state.error = some m2 ∧
      (fetchPortfolio st a1 a2).state.isLoading = false ∧
      (fetchPortfolio st a1 a2).state.portfolio = st.portfolio) ∧
    (∀ d, a1 = FetchAttempt.ok d →
      (fetchPortfolio st a1 a2).state.portfolio = some d ∧
      (fetchPortfolio st a1 a2).state.error = none ∧
      (fetchPortfolio st a1 a2).attempts = 1 ∧
      (fetchPortfolio st a1 a2).retryDelay = none) ∧
    (∀ m d, a1 = FetchAttempt.fail m → a2 = FetchAttempt.ok d →
      (fetchPortfolio st a1 a2).state.portfolio = some d ∧
      (fetchPortfolio st a1 a2).state.error = none) ∧
    (fetchPortfolio st a1 a2).attempts ≤ 2 := by
  cases a1 with
  | ok d =>
    refine ⟨fun m hm => by simp at hm, fun m1 m2 hm1 => by simp at hm1,
      fun d2 hd2 => ?_, fun m d2 hm => by simp at hm, ?_⟩
    · obtain rfl : d = d2 := by simpa using hd2
      simp [fetchPortfolio, h]
    · simp [fetchPortfolio, h]
  | fail m0 =>
    cases a2 with
    | ok d2 =>
      refine ⟨fun m hm => by simp [fetchPortfolio, h],
        fun m1 m2 hm1 hm2 => by simp at hm2,
        fun d hd => by simp at hd,
        fun m d hm hd => ?_, by simp [fetchPortfolio, h]⟩
      obtain rfl : d2 = d := by simpa using hd
      simp [fetchPortfolio, h]
    | fail m2 =>
      refine ⟨fun m hm => by simp [fetchPortfolio, h],
        fun n1 n2 hn1 hn2 => ?_,
        fun d hd => by simp at hd,
        fun m d hm hd => by simp at hd, by simp [fetchPortfolio, h]⟩
      obtain rfl : m2 = n2 := by simpa using hn2
      simp [fetchPortfolio, h]

/-- Witness for claim C9: two failing attempts surface the second error and
scheduled exactly one retry at 3000 ms. -/
theorem fetch_retries_once_witness :
    (fetchPortfolio ⟨none, none, false⟩ (FetchAttempt.fail "HTTP 500")
        (FetchAttempt.fail "HTTP 503")).state.error = some "HTTP 503" ∧
    (fetchPortfolio ⟨none, none, false⟩ (FetchAttempt.fail "HTTP 500")
        (FetchAttempt.fail "HTTP 503")).retryDelay = some 3000 ∧
    (fetchPortfolio ⟨none, none, false⟩ (FetchAttempt.fail "HTTP 500")
        (FetchAttempt.fail "HTTP 503")).attempts = 2 := by
  have h := fetch_retries_once ⟨none, none, false⟩
    (FetchAttempt.fail "HTTP 500") (FetchAttempt.fail "HTTP 503") rfl
  exact ⟨(h.2.1 "HTTP 500" "HTTP 503" rfl rfl).1,
    (h.1 "HTTP 500" rfl).1, (h.1 "HTTP 500" rfl).2⟩

/-- Claim C10: the aggregate folds agree with the per-item metrics — the
total portfolio value is the sum over the portfolio metrics of totalValue
(0 where absent), and the total P&L is the corresponding sum of dailyPnl. -/
theorem aggregates_agree_with_itemMetrics (portfolio : List PortfolioItem)
    (prices : String → Option ℚ) :
    calculateTotalPortfolioValue portfolio prices =
      ((calculatePortfolioMetrics portfolio prices).map
        (fun r => r.totalValue.getD 0)).sum ∧
    calculateTotalPortfolioPnl portfolio prices =
      ((calculatePortfolioMetrics portfolio prices).map
        (fun r => r.dailyPnl.getD 0)).sum := by
  constructor
  · induction portfolio with
    | nil => rfl
    | cons hd tl ih =>
      have hstep : calculateTotalPortfolioValue (hd :: tl) prices =
          (match prices hd.symbol with
            | none => (0 : ℚ)
            | some price => 0 + hd.quantity * price) +
            calculateTotalPortfolioValue tl prices :=
        portfolio_foldl_acc prices (fun item price => item.quantity * price)
          tl _
      rw [hstep, ih]
      cases hp : prices hd.symbol with
      | none =>
        simp [calculatePortfolioMetrics, calculatePortfolioItemMetrics,
          calculateTotalValue, hp]
      | some pr =>
        simp [calculatePortfolioMetrics, calculatePortfolioItemMetrics,
          calculateTotalValue, hp]
  · induction portfolio with
    | nil => rfl
    | cons hd tl ih =>
      have hstep : calculateTotalPortfolioPnl (hd :: tl) prices =
          (match prices hd.symbol with
            | none => (0 : ℚ)
            | some price => 0 + hd.quantity * (price - hd.avgCost)) +
            calculateTotalPortfolioPnl tl prices :=
        portfolio_foldl_acc prices
          (fun item price => item.quantity * (price - item.avgCost)) tl _
      rw [hstep, ih]
      cases hp : prices hd.symbol with
      | none =>
        simp [calculatePortfolioMetrics, calculatePortfolioItemMetrics,
          calculateDailyPnl, hp]
      | some pr =>
        simp [calculatePortfolioMetrics, calculatePortfolioItemMetrics,
          calculateDailyPnl, hp]

end TradingDashboard
